import Mathlib

/-!
Verification development for the social-automator task execution engine.

The definitions below are a shallow embedding of the TypeScript source:
 - `src/lib/playwright-config.ts` (global browser, stealth setup, cookie parsing),
 - `src/app/api/twitter/follow/route.ts` (the twitter follow, like and comment
   route handlers, concatenated in that file),
 - `src/app/api/twitter/add-account/route.ts` (the twitter add-account handler),
 - the facebook create-post handler with its `executePost` helper.

Browser input and output is modeled by environment records describing what the
driven page reports at each decision point; database writes, browser launches,
context opens and closes are recorded as an event trace.
-/

namespace SocAuto

/-! ## Accounts and the proxy resolver

`Account` carries the proxy columns read by the route handlers.  The resolver
below embeds the expression from the twitter follow route:

  const proxyConfig = account.proxy_ip && account.proxy_port ? {
    type: 'http', server: account.proxy_ip, port: account.proxy_port,
    username: account.proxy_username || '', password: account.proxy_password || ''
  } : undefined;

JavaScript truthiness on the nullable columns: a string is truthy when it is
present and nonempty, a numeric port is truthy when present and nonzero.
The spec names the descriptor fields protocol and host; in the source they are
called `type` and `server`.
-/

structure Account where
  proxy_ip : Option String
  proxy_port : Option Nat
  proxy_username : Option String
  proxy_password : Option String
  cookies : Option String
deriving Repr, DecidableEq

structure ProxyConfig where
  type : String
  server : String
  port : Nat
  username : String
  password : String
deriving Repr, DecidableEq

def truthyStr : Option String → Bool
  | some s => !(s == "")
  | none => false

def truthyNat : Option Nat → Bool
  | some n => !(n == 0)
  | none => false

/-- JavaScript `x || ''` on a nullable string column. -/
def orEmpty : Option String → String
  | some s => s
  | none => ""

def proxyConfigOf (a : Account) : Option ProxyConfig :=
  if truthyStr a.proxy_ip && truthyNat a.proxy_port then
    some { type := "http"
           server := (a.proxy_ip).getD ""
           port := (a.proxy_port).getD 0
           username := orEmpty a.proxy_username
           password := orEmpty a.proxy_password }
  else none

/-! ## Cookie parsing (`parseCookies` in playwright-config.ts)

  function parseCookies(cookies: string) {
    try { return JSON.parse(cookies); }
    catch {
      return cookies.split(';').map(cookie => {
        const [name, value] = cookie.trim().split('=');
        return { name, value, domain: '.facebook.com', path: '/',
                 secure: true, httpOnly: true, sameSite: 'Lax' }; }); } }

`JSON.parse` is external to the repository; it is modeled as a parameter
`jp : String → Option (List CookieRec)` whose `none` result stands for the
thrown parse error on a blob that is not valid JSON. -/

structure CookieRec where
  name : String
  value : Option String
  domain : String
  path : String
  secure : Bool
  httpOnly : Bool
  sameSite : String
deriving Repr, DecidableEq

def fallbackCookie (c : String) : CookieRec :=
  let parts := (c.trim).splitOn "="
  { name := parts.headD ""
    value := parts[1]?
    domain := ".facebook.com"
    path := "/"
    secure := true
    httpOnly := true
    sameSite := "Lax" }

def parseCookies (jp : String → Option (List CookieRec)) (cookies : String) :
    List CookieRec :=
  match jp cookies with
  | some parsed => parsed
  | none => (cookies.splitOn ";").map fallbackCookie

/-- The facebook add-account handler serialises the captured jar as
`name=value; name=value; ...` (not JSON). -/
def cookieJarString (jar : List (String × String)) : String :=
  String.intercalate "; " (jar.map fun p => p.1 ++ "=" ++ p.2)

/-! ## The global browser singleton (playwright-config.ts)

`globalBrowser` is a nullable module-level reference.  `initGlobalBrowser`
launches lazily and returns the shared instance; `createStealthContext` builds
its context on that shared instance; `createStealthSetup` instead calls
`chromium.launch` directly, producing a fresh browser on every call and never
touching the global reference; `cleanup` closes the global browser when it is
running and clears the reference.  Browsers are identified by the order in
which they are launched. -/

structure BrowserWorld where
  globalB : Option Nat
  nextId : Nat
  closedIds : List Nat
deriving Repr, DecidableEq

def initGlobalBrowser (w : BrowserWorld) : BrowserWorld × Nat :=
  match w.globalB with
  | some b => (w, b)
  | none => ({ w with globalB := some w.nextId, nextId := w.nextId + 1 }, w.nextId)

/-- `chromium.launch(...)`: a brand new browser process. -/
def launchChromium (w : BrowserWorld) : BrowserWorld × Nat :=
  ({ w with nextId := w.nextId + 1 }, w.nextId)

/-- `createStealthContext` acquires the shared browser and opens the task
context on it. -/
def createStealthContextB (w : BrowserWorld) : BrowserWorld × Nat :=
  initGlobalBrowser w

/-- `createStealthSetup` launches its own browser and opens the context there;
the global reference is not consulted. -/
def createStealthSetupB (w : BrowserWorld) : BrowserWorld × Nat :=
  launchChromium w

/-- `cleanup`: close the global browser if running, clear the reference. -/
def cleanupW (w : BrowserWorld) : BrowserWorld :=
  match w.globalB with
  | some b => { globalB := none, nextId := w.nextId, closedIds := w.closedIds ++ [b] }
  | none => w

end SocAuto

namespace SocAuto

/-! ## Event traces and HTTP responses -/

inductive LogResult
  | success
  | failed
deriving Repr, DecidableEq

inductive Ev
  | taskIns
  | browserLaunch
  | ctxOpen
  | ctxClose
  | pageClose
  | click
  | cleanupCall
  | accountWrite
  | log (r : LogResult) (msg : String)
  | status (s : String)
deriving Repr, DecidableEq

structure Resp where
  httpStatus : Nat
  success : Option Bool
  requiresMfa : Bool
  message : Option String
  error : Option String
deriving Repr, DecidableEq

def isCtxClose : Ev → Bool
  | .ctxClose => true
  | _ => false

def isCleanup : Ev → Bool
  | .cleanupCall => true
  | _ => false

def isTaskIns : Ev → Bool
  | .taskIns => true
  | _ => false

def isClick : Ev → Bool
  | .click => true
  | _ => false

def isAccountWrite : Ev → Bool
  | .accountWrite => true
  | _ => false

def countCtxClose (t : List Ev) : Nat := (t.filter isCtxClose).length

def countCleanup (t : List Ev) : Nat := (t.filter isCleanup).length

def countTaskIns (t : List Ev) : Nat := (t.filter isTaskIns).length

def countClick (t : List Ev) : Nat := (t.filter isClick).length

def countAccountWrite (t : List Ev) : Nat := (t.filter isAccountWrite).length

def logsOf (t : List Ev) : List (LogResult × String) :=
  t.filterMap fun e =>
    match e with
    | .log r m => some (r, m)
    | _ => none

/-- Task rows are created with status active; `finalStatus` is the value after
all status updates in the trace. -/
def finalStatus (t : List Ev) : String :=
  t.foldl (fun acc e => match e with | .status s => s | _ => acc) "active"

def isTerminal (s : String) : Bool :=
  s == "completed" || s == "failed"

/-- An event that touches the browser session. -/
def browserTouch : Ev → Bool
  | .browserLaunch => true
  | .ctxOpen => true
  | .ctxClose => true
  | .pageClose => true
  | .click => true
  | .cleanupCall => true
  | _ => false

/-- Every task insertion happens strictly before the first browser event. -/
def insertBeforeBrowser (t : List Ev) : Bool :=
  (t.dropWhile (fun e => !(browserTouch e))).all (fun e => !(isTaskIns e))

/-- Substring test on strings, via character lists. -/
def startsWithL : List Char → List Char → Bool
  | [], _ => true
  | _ :: _, [] => false
  | p :: ps, c :: cs => p == c && startsWithL ps cs

def containsL (pat : List Char) : List Char → Bool
  | [] => startsWithL pat []
  | c :: cs => startsWithL pat (c :: cs) || containsL pat cs

def strContains (s pat : String) : Bool :=
  containsL pat.toList s.toList

/-! ## The twitter follow route

Embeds the first handler of `src/app/api/twitter/follow/route.ts`.  Control
flow, in source order: task insert; `createStealthSetup`; navigate (a goto or
selector-wait failure `navFail` is caught by the inner catch); the
already-following and not-being-followed early returns; the selector retry
loop (`buttonFound` records whether any attempt found the button); the click
and optional unfollow dialog; the success log and status update.  The inner
`finally` closes the context on every path through the inner try, including
the early returns and the rethrow, after which the outer catch renders the
HTTP 500 response. -/

inductive TAction
  | follow
  | unfollow
deriving Repr, DecidableEq

def TAction.str : TAction → String
  | .follow => "follow"
  | .unfollow => "unfollow"

structure TFEnv where
  navFail : Option String
  isFollowing : Bool
  isNotFollowing : Bool
  buttonFound : Bool
deriving Repr, DecidableEq

def respOk (m : String) : Resp :=
  { httpStatus := 200, success := some true, requiresMfa := false
    message := some m, error := none }

def resp500 (m : String) : Resp :=
  { httpStatus := 500, success := none, requiresMfa := false
    message := none, error := some m }

def twitterFollowExec (a : TAction) (env : TFEnv) : List Ev × Resp :=
  let pre : List Ev := [Ev.taskIns, Ev.browserLaunch, Ev.ctxOpen]
  match env.navFail with
  | some m =>
      (pre ++ [Ev.log .failed m, Ev.status "failed", Ev.ctxClose], resp500 m)
  | none =>
      match a, env.isFollowing, env.isNotFollowing with
      | .follow, true, _ =>
          (pre ++ [Ev.log .success "User is already being followed", Ev.ctxClose],
           respOk "User is already being followed")
      | .unfollow, _, true =>
          (pre ++ [Ev.log .success "User is not being followed", Ev.ctxClose],
           respOk "User is not being followed")
      | a, _, _ =>
          match env.buttonFound, a with
          | false, .unfollow =>
              (pre ++ [Ev.log .success "User is not being followed",
                       Ev.status "completed", Ev.ctxClose],
               respOk "User is not being followed")
          | false, .follow =>
              let m := "Could not find " ++ TAction.str .follow ++
                " button after multiple attempts"
              (pre ++ [Ev.log .failed m, Ev.status "failed", Ev.ctxClose], resp500 m)
          | true, a =>
              let m := "User " ++ a.str ++ "ed successfully"
              (pre ++ [Ev.click, Ev.log .success m, Ev.status "completed",
                       Ev.ctxClose],
               respOk m)

/-! ## The twitter like route

Embeds the second handler of `src/app/api/twitter/follow/route.ts`: navigate
to the tweet; the already-liked early return; a single `waitForSelector` for
the like button (`likeBtnMsg` is the timeout error text when it is absent);
the click; the three-attempt disjunctive verification loop (`verified`).  The
`finally` closing the context is the outermost one, so every path closes the
context exactly once. -/

structure TLEnv where
  navFail : Option String
  alreadyLiked : Bool
  likeButtonFound : Bool
  likeBtnMsg : String
  verified : Bool
deriving Repr, DecidableEq

def twitterLikeExec (env : TLEnv) : List Ev × Resp :=
  let pre : List Ev := [Ev.taskIns, Ev.browserLaunch, Ev.ctxOpen]
  match env.navFail with
  | some m =>
      (pre ++ [Ev.log .failed m, Ev.status "failed", Ev.ctxClose], resp500 m)
  | none =>
      match env.alreadyLiked, env.likeButtonFound, env.verified with
      | true, _, _ =>
          (pre ++ [Ev.log .success "Post was already liked",
                   Ev.status "completed", Ev.ctxClose],
           respOk "Post was already liked")
      | false, false, _ =>
          (pre ++ [Ev.log .failed env.likeBtnMsg, Ev.status "failed", Ev.ctxClose],
           resp500 env.likeBtnMsg)
      | false, true, false =>
          let m := "Failed to verify like action after multiple attempts"
          (pre ++ [Ev.click, Ev.log .failed m, Ev.status "failed", Ev.ctxClose],
           resp500 m)
      | false, true, true =>
          (pre ++ [Ev.click, Ev.log .success "Tweet liked successfully",
                   Ev.status "completed", Ev.ctxClose],
           respOk "Tweet liked successfully")

/-! ## The facebook create-post route with `executePost`

Embeds the handler holding `executePost`.  The route inserts the task, then
(for `scheduleType = now`) calls `executePost`, whose `finally` closes the
page, closes the context, and calls `cleanup()` — closing the shared global
browser whenever it is running.  On a driver failure `executePost` logs a
failed entry, marks the task failed and rethrows; the caller catches the
rethrown error and logs a second failed entry, then still returns the 200
"Post created successfully" response. -/

structure FPEnv where
  hasProxy : Bool
  execFail : Option String
deriving Repr, DecidableEq

def fbPostNowExec (w : BrowserWorld) (env : FPEnv) :
    BrowserWorld × List Ev × Resp :=
  let w1 := (createStealthSetupB w).1
  let pre : List Ev := [Ev.taskIns, Ev.browserLaunch, Ev.ctxOpen] ++
    (if env.hasProxy then [Ev.accountWrite] else [])
  let okResp : Resp :=
    { httpStatus := 200, success := none, requiresMfa := false
      message := some "Post created successfully", error := none }
  match env.execFail with
  | some m =>
      (cleanupW w1,
       pre ++ [Ev.log .failed m, Ev.status "failed", Ev.pageClose, Ev.ctxClose,
               Ev.cleanupCall, Ev.log .failed m],
       okResp)
  | none =>
      (cleanupW w1,
       pre ++ [Ev.log .success "Post created successfully",
               Ev.status "completed", Ev.pageClose, Ev.ctxClose, Ev.cleanupCall],
       okResp)

/-! ## The twitter add-account route

Embeds `src/app/api/twitter/add-account/route.ts` after request validation.
`ParsedAdd` is the parse result of `addAccountSchema`; `AddEnv` describes what
the login flow observes: the pre-existing account row found by email, a
failure in the username/email/password steps, whether the platform presents
the one-time-code challenge, whether the verify button is visible, whether the
step-5 login verification succeeds, and whether the database write succeeds.
On the challenge-without-secret path the handler explicitly closes the context
and returns `{success:false, requiresMfa:true}` with HTTP 200 before any
account write; the outer `finally` then closes the context a second time. -/

structure ParsedAdd where
  username : String
  email : String
  password : String
  proxy_ip : Option String
  proxy_port : Option Nat
  proxy_username : Option String
  proxy_password : Option String
  mail_password : Option String
  mfa_code : String
deriving Repr, DecidableEq

inductive Existing
  | absent
  | act
  | pend
deriving Repr, DecidableEq

structure AddEnv where
  existing : Existing
  stepFail : Option String
  mfaChallenge : Bool
  mfaVerifyVisible : Bool
  loggedIn : Bool
  dbWriteOk : Bool
deriving Repr, DecidableEq

def mfaRequiredResp : Resp :=
  { httpStatus := 200, success := some false, requiresMfa := true
    message := some "MFA verification required. Please provide your TOTP secret key."
    error := none }

/-- The account-storing tail of the add-account handler (step 5 and the
insert-or-update of the `social_accounts` row, with status `active` when the
login was verified and `pending` otherwise). -/
def addAccountStore (env : AddEnv) (pre : List Ev) : List Ev × Resp :=
  match env.dbWriteOk with
  | true =>
      (pre ++ [Ev.accountWrite, Ev.ctxClose],
       { httpStatus := 200, success := some true, requiresMfa := false
         message := some (if env.loggedIn then "Account added successfully"
           else "Account added with pending status - may require manual verification")
         error := none })
  | false =>
      (pre ++ [Ev.ctxClose], resp500 "Failed to store account in database")

def addAccountExec (p : ParsedAdd) (env : AddEnv) : List Ev × Resp :=
  let pre : List Ev := [Ev.browserLaunch, Ev.ctxOpen]
  match env.existing with
  | .act =>
      (pre ++ [Ev.ctxClose],
       { httpStatus := 200, success := some false, requiresMfa := false
         message := some "Twitter account already exists and is active"
         error := none })
  | _ =>
      match env.stepFail with
      | some m => (pre ++ [Ev.ctxClose], resp500 m)
      | none =>
          match env.mfaChallenge, p.mfa_code == "" with
          | true, true =>
              (pre ++ [Ev.ctxClose, Ev.ctxClose], mfaRequiredResp)
          | true, false =>
              match env.mfaVerifyVisible with
              | false =>
                  (pre ++ [Ev.ctxClose], resp500 "Could not find MFA verify button")
              | true => addAccountStore env pre
          | false, _ => addAccountStore env pre

/-! ## The add-account request validation (`addAccountSchema`)

  username: z.string().min(1), email: z.string().email(),
  password: z.string().min(1), proxy fields optional,
  mfa_code: z.string().refine((val) => val !== "", "MFA code is required")

`mfa_code` carries no `.optional()`: a body without it, or with the empty
string, is rejected before any browser activity.  The zod email format test is
external; it is modeled by the parameter `em`.  The `proxy_port` transform
`(val) => (val ? parseInt(val) : undefined)` is modeled with `String.toNat?`. -/

structure AddAccountBody where
  username : Option String
  email : Option String
  password : Option String
  proxy_ip : Option String
  proxy_port : Option String
  proxy_username : Option String
  proxy_password : Option String
  mail_password : Option String
  mfa_code : Option String
deriving Repr, DecidableEq

def portTransform : Option String → Option Nat
  | some s => if s == "" then none else s.toNat?
  | none => none

def validateAddAccount (em : String → Bool) (b : AddAccountBody) :
    Option ParsedAdd :=
  match b.username, b.email, b.password, b.mfa_code with
  | some u, some e, some pw, some mc =>
      if 1 ≤ u.length && em e && 1 ≤ pw.length && !(mc == "") then
        some { username := u, email := e, password := pw
               proxy_ip := b.proxy_ip
               proxy_port := portTransform b.proxy_port
               proxy_username := b.proxy_username
               proxy_password := b.proxy_password
               mail_password := b.mail_password
               mfa_code := mc }
      else none
  | _, _, _, _ => none

/-! ## Concrete fixtures used by witnesses and counterexamples -/

/-- A world in which the shared global browser is running (browser id 0). -/
def w0 : BrowserWorld := { globalB := some 0, nextId := 1, closedIds := [] }

/-- Follow invocation where the page reports the target already followed. -/
def tfEnvAlready : TFEnv :=
  { navFail := none, isFollowing := true, isNotFollowing := false
    buttonFound := true }

/-- Like invocation where the post-click verification loop exhausts all three
attempts. -/
def tlEnvVerifyFail : TLEnv :=
  { navFail := none, alreadyLiked := false, likeButtonFound := true
    likeBtnMsg := "", verified := false }

/-- Facebook immediate post whose driver succeeds. -/
def fpEnvOk : FPEnv := { hasProxy := false, execFail := none }

/-- Facebook immediate post whose driver throws. -/
def fpEnvFail : FPEnv :=
  { hasProxy := false, execFail := some "Could not find post creation button" }

/-- Add-account invocation that reaches the one-time-code challenge. -/
def addEnvMfa : AddEnv :=
  { existing := .absent, stepFail := none, mfaChallenge := true
    mfaVerifyVisible := true, loggedIn := false, dbWriteOk := true }

/-- Parsed add-account input with no MFA secret. -/
def pAddNoMfa : ParsedAdd :=
  { username := "u1", email := "u1@example.com", password := "pw"
    proxy_ip := none, proxy_port := none, proxy_username := none
    proxy_password := none, mail_password := none, mfa_code := "" }

def em0 : String → Bool := fun _ => true

def jpNone : String → Option (List CookieRec) := fun _ => none

def bodyOk : AddAccountBody :=
  { username := some "user", email := some "user@example.com"
    password := some "pw", proxy_ip := none, proxy_port := none
    proxy_username := none, proxy_password := none, mail_password := none
    mfa_code := some "JBSWY3DP" }

def parsedOk : ParsedAdd :=
  { username := "user", email := "user@example.com", password := "pw"
    proxy_ip := none, proxy_port := none, proxy_username := none
    proxy_password := none, mail_password := none, mfa_code := "JBSWY3DP" }

/-- The field shape the cookie-string fallback always produces. -/
def fbCookieShape (c : CookieRec) : Bool :=
  c.domain == ".facebook.com" && c.path == "/" && c.secure && c.httpOnly &&
    c.sameSite == "Lax"

/-- Did the page report the state the action would establish (the idempotent
early-return guard of the twitter follow route)? -/
def earlyIdem (a : TAction) (env : TFEnv) : Bool :=
  match a with
  | .follow => env.isFollowing
  | .unfollow => env.isNotFollowing

/-! ## Full route handlers including the setup phase

In both twitter handlers the task insert precedes `createStealthSetup`, and
that call sits outside the inner try (follow route line 96, like route line
468).  When it throws — browser launch or context creation fails — only the
outer catch runs: the response is HTTP 500 with the thrown message, no
execution-log entry is written and the task row keeps its initial `active`
status.  `setupFail` carries that thrown message.  In the facebook create-post
handler the social-account re-fetch between the task insert and `executePost`
(lines 136-148) fails the same way: an immediate 500 response
"Failed to fetch social account data" with no log entry and no status
update. -/

def twitterFollowRoute (setupFail : Option String) (a : TAction)
    (env : TFEnv) : List Ev × Resp :=
  match setupFail with
  | some m => ([Ev.taskIns], resp500 m)
  | none => twitterFollowExec a env

def twitterLikeRoute (setupFail : Option String) (env : TLEnv) :
    List Ev × Resp :=
  match setupFail with
  | some m => ([Ev.taskIns], resp500 m)
  | none => twitterLikeExec env

def fbPostRoute (fetchFail : Bool) (w : BrowserWorld) (env : FPEnv) :
    BrowserWorld × List Ev × Resp :=
  match fetchFail with
  | true => (w, [Ev.taskIns], resp500 "Failed to fetch social account data")
  | false => fbPostNowExec w env

/-! # Claims -/

/-- Claim C6: the proxy resolver is a pure function of the account's proxy
fields.  For proxy_ip "10.0.0.5", proxy_port 8080, username "u", password "p"
it yields the http descriptor with those fields (the spec's protocol and host
are the source's `type` and `server`); for a null proxy_ip, or a missing port,
it yields no proxy; being a total function, it never throws. -/
theorem c6_proxy_resolver :
    proxyConfigOf { proxy_ip := some "10.0.0.5", proxy_port := some 8080
                    proxy_username := some "u", proxy_password := some "p"
                    cookies := none } =
      some { type := "http", server := "10.0.0.5", port := 8080
             username := "u", password := "p" } ∧
    (∀ a : Account, a.proxy_ip = none → proxyConfigOf a = none) ∧
    (∀ a : Account, a.proxy_port = none → proxyConfigOf a = none) := by
  refine ⟨by decide, ?_, ?_⟩
  · intro a h
    simp [proxyConfigOf, truthyStr, h]
  · intro a h
    simp [proxyConfigOf, truthyNat, h]

/-- Witness for C6: the nil cases evaluated on concrete accounts. -/
theorem c6_proxy_resolver_witness :
    proxyConfigOf { proxy_ip := none, proxy_port := some 8080
                    proxy_username := some "u", proxy_password := some "p"
                    cookies := none } = none ∧
    proxyConfigOf { proxy_ip := some "10.0.0.5", proxy_port := none
                    proxy_username := some "u", proxy_password := some "p"
                    cookies := none } = none :=
  ⟨c6_proxy_resolver.2.1 _ rfl, c6_proxy_resolver.2.2 _ rfl⟩

/-- Claim C9: whenever the stored session blob is not valid JSON, the cookie
parser splits it on semicolons and every produced record carries the
hard-coded domain ".facebook.com", path "/", secure, httpOnly and sameSite
"Lax" — independent of the account's platform, which the parser never sees. -/
theorem c9_cookie_fallback (jp : String → Option (List CookieRec)) (s : String)
    (h : jp s = none) :
    parseCookies jp s = (s.splitOn ";").map fallbackCookie ∧
    (parseCookies jp s).all fbCookieShape = true := by
  constructor
  · simp [parseCookies, h]
  · refine List.all_eq_true.2 ?_
    intro c hc
    simp only [parseCookies, h, List.mem_map] at hc
    obtain ⟨y, -, rfl⟩ := hc
    rfl

/-- Witness for C9: a plain `name=value; name=value` blob (the very format the
facebook add-account handler stores) is not JSON and is restored as
facebook-domain cookies. -/
theorem c9_cookie_fallback_witness :
    jpNone "auth_token=abc; ct0=def" = none ∧
    parseCookies jpNone "auth_token=abc; ct0=def" =
      (("auth_token=abc; ct0=def").splitOn ";").map fallbackCookie ∧
    (parseCookies jpNone "auth_token=abc; ct0=def").all fbCookieShape = true :=
  ⟨rfl, (c9_cookie_fallback jpNone _ rfl).1, (c9_cookie_fallback jpNone _ rfl).2⟩

/-- Claim C4 is false as stated: task executions call `createStealthSetup`,
which launches a fresh browser on every invocation instead of drawing the
context from the shared global browser.  Concretely: with the shared browser
running as id 0, a task setup launches browser 1 and leaves the global
reference untouched. -/
theorem c4_counterexample :
    w0.globalB = some 0 ∧ (createStealthSetupB w0).2 = 1 ∧
    (createStealthSetupB w0).1.globalB = some 0 ∧ (1 : Nat) ≠ 0 := by decide

/-- Claim C4 as amended: `initGlobalBrowser` is lazy and idempotent and
`createStealthContext` does draw on the shared instance, but the task
executions use `createStealthSetup`, which leaves the global reference
untouched and launches a brand-new browser (the fresh id `nextId`, never the
shared browser) on every call. -/
theorem c4_amended :
    (∀ w : BrowserWorld,
        initGlobalBrowser (initGlobalBrowser w).1 = initGlobalBrowser w) ∧
    (∀ w : BrowserWorld, createStealthContextB w = initGlobalBrowser w) ∧
    (∀ w : BrowserWorld, (createStealthSetupB w).1.globalB = w.globalB ∧
        (createStealthSetupB w).2 = w.nextId) ∧
    (∀ (w : BrowserWorld) (g : Nat), w.globalB = some g → g < w.nextId →
        (createStealthSetupB w).2 ≠ g) := by
  refine ⟨?_, ?_, ?_, ?_⟩
  · intro w
    rcases w with ⟨gb, n, cl⟩
    cases gb <;> rfl
  · intro w
    rfl
  · intro w
    exact ⟨rfl, rfl⟩
  · intro w g hg hlt
    exact ne_of_gt hlt

/-- Witness for C4 as amended: with the shared browser id 0 live, a task
setup does not hand out browser 0. -/
theorem c4_amended_witness :
    w0.globalB = some 0 ∧ 0 < w0.nextId ∧ (createStealthSetupB w0).2 ≠ 0 :=
  ⟨rfl, by decide, c4_amended.2.2.2 w0 0 rfl (by decide)⟩

/-- Claim C7 is false in one detail: on the already-following path the follow
route returns success with the message "User is already being followed", not
the literal message "already following". -/
theorem c7_counterexample :
    (twitterFollowExec .follow tfEnvAlready).2.success = some true ∧
    (twitterFollowExec .follow tfEnvAlready).2.message =
      some "User is already being followed" ∧
    (twitterFollowExec .follow tfEnvAlready).2.message ≠
      some "already following" ∧
    countClick (twitterFollowExec .follow tfEnvAlready).1 = 0 := by decide

/-- Claim C7 as amended: for every follow invocation whose page reports the
target already followed, the route returns success true with the message
"User is already being followed", performs no click (the click and verify
protocol steps are skipped), and logs a single success entry. -/
theorem c7_amended (env : TFEnv) (h1 : env.navFail = none)
    (h2 : env.isFollowing = true) :
    (twitterFollowExec .follow env).2.success = some true ∧
    (twitterFollowExec .follow env).2.message =
      some "User is already being followed" ∧
    countClick (twitterFollowExec .follow env).1 = 0 ∧
    logsOf (twitterFollowExec .follow env).1 =
      [(LogResult.success, "User is already being followed")] := by
  rcases env with ⟨nf, isF, isNF, bF⟩
  cases h1
  cases h2
  exact ⟨rfl, rfl, rfl, rfl⟩

/-- Witness for C7 as amended at the concrete already-following invocation. -/
theorem c7_amended_witness :
    tfEnvAlready.navFail = none ∧ tfEnvAlready.isFollowing = true ∧
    (twitterFollowExec .follow tfEnvAlready).2.success = some true ∧
    countClick (twitterFollowExec .follow tfEnvAlready).1 = 0 :=
  ⟨rfl, rfl, (c7_amended tfEnvAlready rfl rfl).1,
   (c7_amended tfEnvAlready rfl rfl).2.2.1⟩

/-- Claim C3 is false as stated: on the already-following early return the
follow route answers 200 success but never updates the task row, so the task
created by that one-shot invocation is still `active` after the handler
returns. -/
theorem c3_counterexample :
    finalStatus (twitterFollowExec .follow tfEnvAlready).1 = "active" ∧
    (twitterFollowExec .follow tfEnvAlready).2.httpStatus = 200 ∧
    (twitterFollowExec .follow tfEnvAlready).2.success = some true := by decide

/-- Claim C3 as amended: tasks end in a terminal status on every path on
which the browsing setup succeeds — always in the twitter like route and the
facebook post route, and in the twitter follow route on every path other than
its two idempotent early returns (already following, respectively not being
followed), which leave the task `active`.  When `createStealthSetup` throws
after the task insert (twitter routes), or the social-account re-fetch fails
(facebook route), the handler answers 500 with no status update and the task
likewise remains `active`. -/
theorem c3_amended :
    (∀ (sf : Option String) (env : TLEnv),
      (sf = none →
        isTerminal (finalStatus (twitterLikeRoute sf env).1) = true) ∧
      (sf.isSome = true →
        finalStatus (twitterLikeRoute sf env).1 = "active")) ∧
    (∀ (sf : Option String) (a : TAction) (env : TFEnv),
      (sf.isSome = true →
        finalStatus (twitterFollowRoute sf a env).1 = "active") ∧
      (sf = none → env.navFail = none → earlyIdem a env = true →
        finalStatus (twitterFollowRoute sf a env).1 = "active") ∧
      (sf = none → (env.navFail.isSome = true ∨ earlyIdem a env = false) →
        isTerminal (finalStatus (twitterFollowRoute sf a env).1) = true)) ∧
    (∀ (ff : Bool) (w : BrowserWorld) (env : FPEnv),
      (ff = false →
        isTerminal (finalStatus (fbPostRoute ff w env).2.1) = true) ∧
      (ff = true → finalStatus (fbPostRoute ff w env).2.1 = "active")) := by
  refine ⟨?_, ?_, ?_⟩
  · intro sf env
    cases sf with
    | some m => exact ⟨fun h => (nomatch h), fun _ => rfl⟩
    | none =>
        refine ⟨fun _ => ?_, fun h => (nomatch h)⟩
        rcases env with ⟨nf, al, bf, m, v⟩
        cases nf <;> cases al <;> cases bf <;> cases v <;> rfl
  · intro sf a env
    cases sf with
    | some m =>
        exact ⟨fun _ => rfl, fun h _ _ => (nomatch h), fun h _ => (nomatch h)⟩
    | none =>
        rcases env with ⟨nf, isF, isNF, bF⟩
        refine ⟨fun h => (nomatch h), ?_, ?_⟩
        · intro _ h1 h2
          cases h1
          cases a <;> cases isF <;> cases isNF <;> cases bF <;>
            first | rfl | exact absurd h2 (by decide)
        · intro _ h
          cases nf with
          | some m => rfl
          | none =>
              cases a <;> cases isF <;> cases isNF <;> cases bF <;>
                first
                  | rfl
                  | (rcases h with h | h <;> exact absurd h (by decide))
  · intro ff w env
    cases ff with
    | true => exact ⟨fun h => (nomatch h), fun _ => rfl⟩
    | false =>
        refine ⟨fun _ => ?_, fun h => (nomatch h)⟩
        rcases env with ⟨hp, ef⟩
        cases hp <;> cases ef <;> rfl

/-- Witness for C3 as amended: the already-following invocation ends with the
task still active, and so does a like invocation whose browsing setup
throws. -/
theorem c3_amended_witness :
    finalStatus (twitterFollowRoute none .follow tfEnvAlready).1 = "active" ∧
    finalStatus
      (twitterLikeRoute (some "browserType.launch failed") tlEnvVerifyFail).1 =
      "active" :=
  ⟨(c3_amended.2.1 none .follow tfEnvAlready).2.1 rfl rfl rfl,
   (c3_amended.1 (some "browserType.launch failed") tlEnvVerifyFail).2 rfl⟩

/-- Claim C8 is false in one detail: when the like verification loop exhausts
its three attempts the task is marked failed, exactly one failed log entry is
written and the response is HTTP 500, but the logged message is "Failed to
verify like action after multiple attempts", which does not contain the words
"like button". -/
theorem c8_counterexample :
    finalStatus (twitterLikeExec tlEnvVerifyFail).1 = "failed" ∧
    logsOf (twitterLikeExec tlEnvVerifyFail).1 =
      [(LogResult.failed,
        "Failed to verify like action after multiple attempts")] ∧
    (twitterLikeExec tlEnvVerifyFail).2.httpStatus = 500 ∧
    strContains "Failed to verify like action after multiple attempts"
      "like button" = false := by decide

/-- Claim C8 as amended: for every like invocation in which the post-click
verification loop exhausts all 3 attempts, the task ends failed, exactly one
failed log entry is appended with the message "Failed to verify like action
after multiple attempts" (a message without the words "like button"), and the
response is HTTP 500. -/
theorem c8_amended (env : TLEnv) (h1 : env.navFail = none)
    (h2 : env.alreadyLiked = false) (h3 : env.likeButtonFound = true)
    (h4 : env.verified = false) :
    finalStatus (twitterLikeExec env).1 = "failed" ∧
    logsOf (twitterLikeExec env).1 =
      [(LogResult.failed,
        "Failed to verify like action after multiple attempts")] ∧
    (twitterLikeExec env).2.httpStatus = 500 ∧
    strContains "Failed to verify like action after multiple attempts"
      "like button" = false := by
  rcases env with ⟨nf, al, bf, m, v⟩
  cases h1
  cases h2
  cases h3
  cases h4
  exact ⟨rfl, rfl, rfl, by decide⟩

/-- Witness for C8 as amended at the concrete exhausted-verification run. -/
theorem c8_amended_witness :
    tlEnvVerifyFail.navFail = none ∧ tlEnvVerifyFail.verified = false ∧
    finalStatus (twitterLikeExec tlEnvVerifyFail).1 = "failed" ∧
    (twitterLikeExec tlEnvVerifyFail).2.httpStatus = 500 :=
  ⟨rfl, rfl, (c8_amended tlEnvVerifyFail rfl rfl rfl rfl).1,
   (c8_amended tlEnvVerifyFail rfl rfl rfl rfl).2.2.1⟩

/-- Claim C1 is false in its second half: the facebook immediate-post
execution calls `cleanup()` in its finally block, and with the shared global
browser running (id 0) that run closes it and clears the reference. -/
theorem c1_counterexample :
    w0.globalB = some 0 ∧
    (fbPostNowExec w0 fpEnvOk).1.closedIds = [0] ∧
    (fbPostNowExec w0 fpEnvOk).1.globalB = none := by decide

/-- Claim C1 as amended: on every modeled path of the twitter follow and like
routes the context is closed exactly once and the shared-browser shutdown is
never invoked; the facebook immediate-post execution also closes its context
exactly once, but its finally block always calls `cleanup()`, which closes
the shared global browser whenever it is running. -/
theorem c1_amended :
    (∀ (a : TAction) (env : TFEnv),
        countCtxClose (twitterFollowExec a env).1 = 1 ∧
        countCleanup (twitterFollowExec a env).1 = 0) ∧
    (∀ env : TLEnv,
        countCtxClose (twitterLikeExec env).1 = 1 ∧
        countCleanup (twitterLikeExec env).1 = 0) ∧
    (∀ (w : BrowserWorld) (env : FPEnv),
        countCtxClose (fbPostNowExec w env).2.1 = 1 ∧
        countCleanup (fbPostNowExec w env).2.1 = 1 ∧
        ∀ g : Nat, w.globalB = some g →
          g ∈ (fbPostNowExec w env).1.closedIds) := by
  refine ⟨?_, ?_, ?_⟩
  · intro a env
    rcases env with ⟨nf, isF, isNF, bF⟩
    cases nf <;> cases a <;> cases isF <;> cases isNF <;> cases bF <;>
      exact ⟨rfl, rfl⟩
  · intro env
    rcases env with ⟨nf, al, bf, m, v⟩
    cases nf <;> cases al <;> cases bf <;> cases v <;> exact ⟨rfl, rfl⟩
  · intro w env
    rcases env with ⟨hp, ef⟩
    rcases w with ⟨gb, n, cl⟩
    refine ⟨?_, ?_, ?_⟩
    · cases hp <;> cases ef <;> rfl
    · cases hp <;> cases ef <;> rfl
    · intro g hg
      cases gb with
      | none => exact nomatch hg
      | some b =>
          cases Option.some.inj hg
          cases hp <;> cases ef <;>
            simp [fbPostNowExec, cleanupW, createStealthSetupB, launchChromium]

/-- Witness for C1 as amended: with the shared browser running as id 0, the
facebook immediate-post execution closes it. -/
theorem c1_amended_witness :
    w0.globalB = some 0 ∧ 0 ∈ (fbPostNowExec w0 fpEnvOk).1.closedIds :=
  ⟨rfl, (c1_amended.2.2 w0 fpEnvOk).2.2 0 rfl⟩

/-- Claim C2 is false in its log half: when the driver of the facebook
immediate post throws, the helper logs a failed entry and rethrows, and the
caller logs the same failure again — two execution-log entries for one
attempt. -/
theorem c2_counterexample :
    (logsOf (fbPostNowExec w0 fpEnvFail).2.1).length = 2 ∧
    logsOf (fbPostNowExec w0 fpEnvFail).2.1 =
      [(LogResult.failed, "Could not find post creation button"),
       (LogResult.failed, "Could not find post creation button")] := by decide

/-- Claim C2 as amended: in all three modeled handlers exactly one task row
is inserted and it is inserted before any browser event.  The twitter follow
and like routes append exactly one execution-log entry on every path on which
the browsing setup succeeds, but zero entries when `createStealthSetup`
throws after the task insert; the facebook post path appends one entry when
the driver succeeds, two failed entries when it throws, and zero entries when
the social-account re-fetch after the task insert fails. -/
theorem c2_amended :
    (∀ (sf : Option String) (a : TAction) (env : TFEnv),
        countTaskIns (twitterFollowRoute sf a env).1 = 1 ∧
        insertBeforeBrowser (twitterFollowRoute sf a env).1 = true ∧
        (logsOf (twitterFollowRoute sf a env).1).length =
          (match sf with | some _ => 0 | none => 1)) ∧
    (∀ (sf : Option String) (env : TLEnv),
        countTaskIns (twitterLikeRoute sf env).1 = 1 ∧
        insertBeforeBrowser (twitterLikeRoute sf env).1 = true ∧
        (logsOf (twitterLikeRoute sf env).1).length =
          (match sf with | some _ => 0 | none => 1)) ∧
    (∀ (ff : Bool) (w : BrowserWorld) (env : FPEnv),
        countTaskIns (fbPostRoute ff w env).2.1 = 1 ∧
        insertBeforeBrowser (fbPostRoute ff w env).2.1 = true ∧
        (logsOf (fbPostRoute ff w env).2.1).length =
          (match ff, env.execFail with
           | true, _ => 0
           | false, some _ => 2
           | false, none => 1)) := by
  refine ⟨?_, ?_, ?_⟩
  · intro sf a env
    cases sf with
    | some m => exact ⟨rfl, rfl, rfl⟩
    | none =>
        rcases env with ⟨nf, isF, isNF, bF⟩
        cases nf <;> cases a <;> cases isF <;> cases isNF <;> cases bF <;>
          exact ⟨rfl, rfl, rfl⟩
  · intro sf env
    cases sf with
    | some m => exact ⟨rfl, rfl, rfl⟩
    | none =>
        rcases env with ⟨nf, al, bf, m, v⟩
        cases nf <;> cases al <;> cases bf <;> cases v <;> exact ⟨rfl, rfl, rfl⟩
  · intro ff w env
    cases ff with
    | true => exact ⟨rfl, rfl, rfl⟩
    | false =>
        rcases env with ⟨hp, ef⟩
        cases hp <;> cases ef <;> exact ⟨rfl, rfl, rfl⟩

/-- Claim C5: for every add-account driver invocation that reaches the login
flow, in which the platform presents the one-time-code challenge and the
supplied mfa_code secret is empty, the handler answers
success false with requiresMfa true (HTTP 200, the distinct re-prompt
message), and no social-accounts record is written. -/
theorem c5_mfa_gate (p : ParsedAdd) (env : AddEnv)
    (hex : env.existing ≠ Existing.act) (hstep : env.stepFail = none)
    (hch : env.mfaChallenge = true) (hmfa : p.mfa_code = "") :
    (addAccountExec p env).2 = mfaRequiredResp ∧
    countAccountWrite (addAccountExec p env).1 = 0 := by
  have hb : (p.mfa_code == "") = true := by simp [hmfa]
  rcases env with ⟨ex, sf, ch, vv, li, db⟩
  cases hstep
  cases hch
  cases ex with
  | act => exact absurd rfl hex
  | absent =>
      simp only [addAccountExec, hb]
      exact ⟨trivial, rfl⟩
  | pend =>
      simp only [addAccountExec, hb]
      exact ⟨trivial, rfl⟩

/-- Witness for C5 at a concrete challenge invocation with an empty secret. -/
theorem c5_mfa_gate_witness :
    addEnvMfa.existing ≠ Existing.act ∧ pAddNoMfa.mfa_code = "" ∧
    (addAccountExec pAddNoMfa addEnvMfa).2 = mfaRequiredResp ∧
    countAccountWrite (addAccountExec pAddNoMfa addEnvMfa).1 = 0 :=
  ⟨by decide, rfl, (c5_mfa_gate pAddNoMfa addEnvMfa (by decide) rfl rfl rfl).1,
   (c5_mfa_gate pAddNoMfa addEnvMfa (by decide) rfl rfl rfl).2⟩

/-- Claim C10: the add-account schema accepts a request only when mfa_code is
a present, nonempty string, so every validated invocation carries a nonempty
secret and the requiresMfa branch is unreachable through the HTTP interface:
no environment makes a validated invocation answer requiresMfa. -/
theorem c10_mfa_branch_unreachable (em : String → Bool) (b : AddAccountBody)
    (p : ParsedAdd) (env : AddEnv)
    (h : validateAddAccount em b = some p) :
    p.mfa_code ≠ "" ∧ (addAccountExec p env).2.requiresMfa = false := by
  have hne : p.mfa_code ≠ "" := by
    rcases b with ⟨bu, be, bpw, bip, bpp, bpu, bppw, bmp, bmc⟩
    cases bu with
    | none => exact nomatch h
    | some u =>
    cases be with
    | none => exact nomatch h
    | some e =>
    cases bpw with
    | none => exact nomatch h
    | some pw =>
    cases bmc with
    | none => exact nomatch h
    | some mc =>
    simp only [validateAddAccount] at h
    split at h
    · rename_i hcond
      simp only [Bool.and_eq_true, Bool.not_eq_true', beq_eq_false_iff_ne,
        decide_eq_true_eq] at hcond
      cases Option.some.inj h
      exact hcond.2
    · exact nomatch h
  refine ⟨hne, ?_⟩
  have hb : (p.mfa_code == "") = false := by
    simp [hne]
  rcases env with ⟨ex, sf, ch, vv, li, db⟩
  cases ex <;> cases sf <;> cases ch <;> cases vv <;> cases li <;> cases db <;>
    simp [addAccountExec, addAccountStore, hb, resp500, mfaRequiredResp]

/-- Witness for C10: a concrete validated body with a nonempty secret, run
through a challenge environment, never answers requiresMfa. -/
theorem c10_mfa_branch_unreachable_witness :
    validateAddAccount em0 bodyOk = some parsedOk ∧
    parsedOk.mfa_code ≠ "" ∧
    (addAccountExec parsedOk addEnvMfa).2.requiresMfa = false :=
  ⟨by decide,
   (c10_mfa_branch_unreachable em0 bodyOk parsedOk addEnvMfa (by decide)).1,
   (c10_mfa_branch_unreachable em0 bodyOk parsedOk addEnvMfa (by decide)).2⟩

end SocAuto
